import Mathlib

/-!
Shallow embedding of the advertising video-upload front end:
local history storage (`src/lib/videoStorage.ts`), scene auto-selection
(`src/components/Timeline.tsx`), status polling
(`src/components/StatusPoller.tsx`), the upload form
(`src/components/Upload.tsx`) and the upload API route with its simulated
processing workflow (the unnamed Next.js route file).
-/

namespace Advertising

/-- The status enum shared by every video record:
`'uploading' | 'processing' | 'indexing' | 'completed' | 'error'`. -/
inductive VideoStatus where
  | uploading
  | processing
  | indexing
  | completed
  | error
deriving DecidableEq, Repr

/-- `StoredVideo` from `src/lib/videoStorage.ts`; TypeScript optional fields
become `Option`, absent meaning the key is missing from the object. -/
structure StoredVideo where
  videoId : String
  name : String
  uploadDate : String
  status : VideoStatus
  fileSize : Option Nat := none
  duration : Option Nat := none
  thumbnailUrl : Option String := none
  error : Option String := none
deriving DecidableEq, Repr

/-- The JavaScript object spread `{ ...old, ...video }` used by
`videoStorage.save` to update an existing entry: every field present on the
new record wins, a key absent from the new record keeps the old value. -/
def mergeVideo (old video : StoredVideo) : StoredVideo :=
  { videoId := video.videoId
    name := video.name
    uploadDate := video.uploadDate
    status := video.status
    fileSize := video.fileSize.or old.fileSize
    duration := video.duration.or old.duration
    thumbnailUrl := video.thumbnailUrl.or old.thumbnailUrl
    error := video.error.or old.error }

/-- The browser environment seen by `videoStorage`: whether `window` exists,
the raw string (if any) under the `'video_analysis_history'` key, and flags
for the storage operations that may throw (quota, privacy mode, ...). -/
structure StorageEnv where
  windowDefined : Bool
  stored : Option String
  getItemFails : Bool := false
  setItemFails : Bool := false
  removeItemFails : Bool := false
deriving DecidableEq, Repr

/-- `localStorage.getItem(STORAGE_KEY)`: may throw, otherwise yields the
stored string or `null`. -/
def localStorageGetItem (env : StorageEnv) : Except String (Option String) :=
  if env.getItemFails then Except.error "getItem failed" else Except.ok env.stored

/-- `localStorage.setItem(STORAGE_KEY, value)`: may throw, otherwise replaces
the stored string. -/
def localStorageSetItem (env : StorageEnv) (value : String) : Except String StorageEnv :=
  if env.setItemFails then Except.error "setItem failed"
  else Except.ok { env with stored := some value }

/-- `localStorage.removeItem(STORAGE_KEY)`: may throw, otherwise clears the
stored string. -/
def localStorageRemoveItem (env : StorageEnv) : Except String StorageEnv :=
  if env.removeItemFails then Except.error "removeItem failed"
  else Except.ok { env with stored := none }

namespace videoStorage

/-- `videoStorage.getAll`: returns `[]` when `window` is undefined, when
nothing is stored, or when `getItem`/`JSON.parse` throws (the whole body is
wrapped in try/catch).  `jsonParse` stands for `JSON.parse` at this type. -/
def getAll (jsonParse : String → Except String (List StoredVideo))
    (env : StorageEnv) : List StoredVideo :=
  if env.windowDefined then
    match localStorageGetItem env with
    | Except.error _ => []
    | Except.ok none => []
    | Except.ok (some stored) =>
        match jsonParse stored with
        | Except.ok videos => videos
        | Except.error _ => []
  else []

/-- The list-level body of `videoStorage.save`: update the existing entry in
place via object spread when the `videoId` is already present, otherwise
`unshift` the new record to the front; then `slice(0, 50)`. -/
def saveList (videos : List StoredVideo) (video : StoredVideo) : List StoredVideo :=
  let updated :=
    match videos.findIdx? (fun v => v.videoId == video.videoId) with
    | some existingIndex =>
        match videos.get? existingIndex with
        | some old => videos.set existingIndex (mergeVideo old video)
        | none => videos
    | none => video :: videos
  updated.take 50

/-- `videoStorage.save`: no-op when `window` is undefined; reads the current
list, applies `saveList`, writes the result back, and swallows any storage
exception (the write is inside try/catch). -/
def save (jsonParse : String → Except String (List StoredVideo))
    (jsonStringify : List StoredVideo → String)
    (env : StorageEnv) (video : StoredVideo) : StorageEnv :=
  if env.windowDefined then
    let videos := getAll jsonParse env
    let trimmedVideos := saveList videos video
    match localStorageSetItem env (jsonStringify trimmedVideos) with
    | Except.ok env2 => env2
    | Except.error _ => env
  else env

/-- `videoStorage.delete`: no-op when `window` is undefined; filters out the
entry with the given id and writes back, swallowing any storage exception. -/
def delete (jsonParse : String → Except String (List StoredVideo))
    (jsonStringify : List StoredVideo → String)
    (env : StorageEnv) (videoId : String) : StorageEnv :=
  if env.windowDefined then
    let videos := getAll jsonParse env
    let filtered := videos.filter (fun v => v.videoId != videoId)
    match localStorageSetItem env (jsonStringify filtered) with
    | Except.ok env2 => env2
    | Except.error _ => env
  else env

/-- `videoStorage.clear`: no-op when `window` is undefined; removes the key,
swallowing any storage exception. -/
def clear (env : StorageEnv) : StorageEnv :=
  if env.windowDefined then
    match localStorageRemoveItem env with
    | Except.ok env2 => env2
    | Except.error _ => env
  else env

end videoStorage

/-- `createStoredVideo` from `src/lib/videoStorage.ts`; the
`new Date().toISOString()` timestamp is passed in as `uploadDate`. -/
def createStoredVideo (videoId name : String) (fileSize : Option Nat)
    (uploadDate : String) : StoredVideo :=
  { videoId := videoId
    name := name
    uploadDate := uploadDate
    status := VideoStatus.uploading
    fileSize := fileSize }

/-! ## Timeline.tsx: scenes and auto-selection -/

/-- The `sentiment` union `'positive' | 'negative' | 'neutral'`. -/
inductive Sentiment where
  | positive
  | negative
  | neutral
deriving DecidableEq, Repr

/-- `Scene` from `src/components/Timeline.tsx`; numeric offsets play no role
in the selection logic and are carried as integers. -/
structure Scene where
  id : String
  start : Int
  «end» : Int
  thumbnailUrl : Option String := none
  transcript : Option String := none
  tags : Option (List String) := none
  sentiment : Option Sentiment := none
  confidence : Option Int := none
deriving DecidableEq, Repr

/-- The second block of `autoSelectScenes`: push the id of the first
positive-sentiment scene (`positiveScenes[0]`) when one exists. -/
def autoSelectPositive (sceneList : List Scene) (selected : List String) : List String :=
  match (sceneList.filter (fun s => s.sentiment == some Sentiment.positive)).head? with
  | some p => selected ++ [p.id]
  | none => selected

/-- The third block of `autoSelectScenes`: when the list has more than 3
scenes, push the id of the scene at `middleIndex = Math.floor(length / 2)`
unless that id is already selected. -/
def autoSelectMiddle (sceneList : List Scene) (selected : List String) : List String :=
  if sceneList.length > 3 then
    let middleIndex := sceneList.length / 2
    match sceneList.get? middleIndex with
    | some mid =>
        if selected.contains mid.id then selected else selected ++ [mid.id]
    | none => selected
  else selected

/-- `autoSelectScenes` from `src/components/Timeline.tsx`: on a non-empty
list, start from the first scene's id and thread the `selected` accumulator
through the positive-sentiment block and the middle-scene block. -/
def autoSelectScenes (sceneList : List Scene) : List String :=
  match sceneList.head? with
  | none => []
  | some first =>
      autoSelectMiddle sceneList (autoSelectPositive sceneList [first.id])

/-! ## StatusPoller.tsx: one polling step -/

/-- The JSON body returned by the status endpoint, `VideoStatus` in
`src/components/StatusPoller.tsx`. -/
structure VideoStatusData where
  id : String
  status : VideoStatus
  progress : Option Nat := none
  message : Option String := none
  error : Option String := none
deriving DecidableEq, Repr

/-- What one execution of `pollStatus` leaves behind: the status state set by
`setStatus`, whether `clearInterval(interval)` was called, and the `loading`
flag. -/
structure PollOutcome where
  observed : VideoStatusData
  cleared : Bool
  loading : Bool
deriving DecidableEq, Repr

/-- The fixed polling period of `setInterval(pollStatus, 2000)`. -/
def pollIntervalMs : Nat := 2000

/-- One execution of `pollStatus` in `src/components/StatusPoller.tsx`.  A
successful fetch stores the body and clears the interval exactly when the
body's status is `completed` or `error`; a failed fetch (non-OK response
throws, as does a network error) lands in the catch block, which stores a
synthesized `error` status and always clears the interval. -/
def pollStep (videoId : String) (fetchResult : Except String VideoStatusData) :
    PollOutcome :=
  match fetchResult with
  | Except.ok data =>
      { observed := data
        cleared := data.status == VideoStatus.completed || data.status == VideoStatus.error
        loading := false }
  | Except.error e =>
      { observed :=
          { id := videoId
            status := VideoStatus.error
            error := some e }
        cleared := true
        loading := false }

/-! ## Upload.tsx: file selection, URL validation and submit -/

/-- The pieces of a browser `File` object that the upload form inspects. -/
structure JSFile where
  name : String
  size : Nat
  type : String
deriving DecidableEq, Repr

/-- A user-visible message set through `setError`.  Fixed strings are carried
verbatim; the large-file warning interpolates the size in MB and is carried
with that number. -/
inductive UploadMsg where
  | text (s : String)
  | largeFileWarning (sizeMB : ℚ)
deriving DecidableEq, Repr

/-- JavaScript `s.startsWith(pre)`, spelled out on the character lists so
that it computes by kernel reduction. -/
def strStartsWith (s pre : String) : Bool := pre.data.isPrefixOf s.data

/-- The view union `'upload' | 'history' | 'processing'` of `Upload.tsx`. -/
inductive View where
  | upload
  | history
  | processing
deriving DecidableEq, Repr

/-- The component state of `Upload.tsx` that the claims touch; `history` is
the decoded content of the `videoStorage` localStorage list. -/
structure SubmitState where
  file : Option JSFile := none
  url : String := ""
  videoId : Option String := none
  loading : Bool := false
  error : Option UploadMsg := none
  currentView : View := View.upload
  history : List StoredVideo := []
deriving DecidableEq, Repr

/-- `handleFileChange` from `src/components/Upload.tsx`, applied to a selected
file: non-video types are rejected; `size / 1024 / 1024 > 100` is rejected
without touching the file state; otherwise the file is accepted (clearing url
and error) and sizes above 50 MB additionally set the large-file warning. -/
def handleFileChange (selectedFile : JSFile) (st : SubmitState) : SubmitState :=
  if !(strStartsWith selectedFile.type "video/") then
    { st with error := some (UploadMsg.text "Please select a video file") }
  else
    let fileSizeMB : ℚ := (selectedFile.size : ℚ) / 1024 / 1024
    if fileSizeMB > 100 then
      { st with error := some (UploadMsg.text
          "File too large. Please use a video smaller than 100MB or try a video URL instead.") }
    else
      let st1 := { st with file := some selectedFile, url := "", error := none }
      if fileSizeMB > 50 then
        { st1 with error := some (UploadMsg.largeFileWarning fileSizeMB) }
      else st1

/-- `validateUrl` from `src/components/Upload.tsx`:
`try { new URL(url); return true } catch { return false }`.  The WHATWG URL
constructor is external to the repository and is passed in as `urlParse`,
throwing (`Except.error`) exactly on strings that do not parse as absolute
URLs. -/
def validateUrl (urlParse : String → Except String Unit) (url : String) : Bool :=
  match urlParse url with
  | Except.ok _ => true
  | Except.error _ => false

/-- `url.split('/').pop() || 'Video from URL'` in `submit`. -/
def urlVideoName (url : String) : String :=
  let last := (url.splitOn "/").getLastD ""
  if last == "" then "Video from URL" else last

/-- The possible outcomes of the single `fetch` issued by `submit`: a parsed
success body, a non-OK HTTP response (which `submit` turns into a thrown
`Error`), a `TypeError` mentioning fetch (network failure), or any other
thrown error. -/
inductive FetchOutcome where
  | ok (videoId : String)
  | httpError (statusText errorText : String)
  | networkFetchError (msg : String)
  | otherError (msg : String)
deriving DecidableEq, Repr

/-- `submit` from `src/components/Upload.tsx`.  Returns the new component
state together with the number of upload requests issued.  The two guards
reject an empty form and a non-empty invalid URL without fetching; otherwise
exactly one fetch happens: on success the videoId is stored, a history record
is saved (`videoStorage.save`, i.e. `saveList` on the decoded list) and the
view switches to processing; on any failure the catch block only sets an
error message. -/
def submit (urlParse : String → Except String Unit) (fetchOutcome : FetchOutcome)
    (uploadDate : String) (st : SubmitState) : SubmitState × Nat :=
  if st.file.isNone && st.url == "" then
    ({ st with error := some (UploadMsg.text "Please select a file or enter a URL") }, 0)
  else if st.url != "" && !(validateUrl urlParse st.url) then
    ({ st with error := some (UploadMsg.text "Please enter a valid URL") }, 0)
  else
    let st1 := { st with loading := true, error := none }
    match fetchOutcome with
    | FetchOutcome.ok newVideoId =>
        let videoName :=
          match st1.file with
          | some f => f.name
          | none => urlVideoName st1.url
        let storedVideo :=
          createStoredVideo newVideoId videoName (st1.file.map (fun f => f.size)) uploadDate
        ({ st1 with
            videoId := some newVideoId
            history := videoStorage.saveList st1.history storedVideo
            currentView := View.processing
            loading := false }, 1)
    | FetchOutcome.httpError statusText errorText =>
        ({ st1 with
            error := some (UploadMsg.text
              ("Upload failed: " ++ statusText ++ " - " ++ errorText))
            loading := false }, 1)
    | FetchOutcome.networkFetchError _ =>
        ({ st1 with
            error := some (UploadMsg.text
              "Network connection failed. Please check your internet connection and try again.")
            loading := false }, 1)
    | FetchOutcome.otherError msg =>
        ({ st1 with error := some (UploadMsg.text msg), loading := false }, 1)

/-! ## The upload API route (unnamed Next.js route file) -/

/-- One scene of the canned timeline payload written at completion. -/
structure TimelineScene where
  start : Nat
  «end» : Nat
  description : String
deriving DecidableEq, Repr

/-- The canned timeline payload written at completion. -/
structure TimelineData where
  duration : Nat
  scenes : List TimelineScene
  objects : List String
  text : List String
  speech : String
deriving DecidableEq, Repr

/-- A record of the in-memory `videoStore` map in the API route. -/
structure VideoRecord where
  id : String
  filename : Option String := none
  url : Option String := none
  status : VideoStatus
  progress : Nat
  message : Option String := none
  error : Option String := none
  createdAt : String := ""
  timeline : Option TimelineData := none
deriving DecidableEq, Repr

/-- The JSON response produced by the `POST` handler. -/
structure PostResponse where
  statusCode : Nat
  error : Option String := none
  videoId : Option String := none
  status : Option VideoStatus := none
  message : Option String := none
deriving DecidableEq, Repr

/-- The `POST` handler's response together with the entry (if any) it put
into the `videoStore` map. -/
structure PostResult where
  response : PostResponse
  storedRecord : Option (String × VideoRecord)
deriving DecidableEq, Repr

/-- JavaScript truthiness of `formData.get('url')`: both `null` and the empty
string are falsy. -/
def urlTruthy : Option String → Bool
  | none => false
  | some u => u != ""

/-- The `POST` handler of the upload API route.  `urlParse` stands for the
`new URL(url)` constructor, `freshId` for `randomUUID()`, `now` for
`new Date()`, and `fileWriteFails` for the caught failure of writing the
upload to disk (which falls back to the original file name).  Missing
file-and-url is a 400; a file branch always succeeds; a URL that fails to
parse returns 400 before anything is stored; otherwise the record is stored
and a 201 with the fresh id and status `'uploading'` is returned. -/
def POST (urlParse : String → Except String Unit) (freshId : String) (now : String)
    (file : Option JSFile) (url : Option String) (fileWriteFails : Bool) : PostResult :=
  if !(file.isSome || urlTruthy url) then
    { response := { statusCode := 400, error := some "Either file or url is required" }
      storedRecord := none }
  else
    let videoRecord : VideoRecord :=
      { id := freshId
        status := VideoStatus.uploading
        progress := 0
        createdAt := now }
    let withSource : Except PostResponse VideoRecord :=
      match file with
      | some f =>
          Except.ok { videoRecord with
            filename := some (if fileWriteFails then f.name else freshId ++ "_" ++ f.name)
            message := some ("Uploaded file: " ++ f.name) }
      | none =>
          if urlTruthy url then
            match url with
            | some u =>
                match urlParse u with
                | Except.ok _ =>
                    Except.ok { videoRecord with
                      url := some u
                      message := some ("Processing URL: " ++ u) }
                | Except.error _ =>
                    Except.error { statusCode := 400, error := some "Invalid URL provided" }
            | none => Except.ok videoRecord
          else Except.ok videoRecord
    match withSource with
    | Except.error resp => { response := resp, storedRecord := none }
    | Except.ok record =>
        { response :=
            { statusCode := 201
              videoId := some freshId
              status := some VideoStatus.uploading
              message := record.message }
          storedRecord := some (freshId, record) }

/-- The update scheduled by `simulateProcessing` at 1000 ms. -/
def simulateUpdate1 (v : VideoRecord) : VideoRecord :=
  { v with status := VideoStatus.processing, progress := 25,
           message := some "Analyzing video content..." }

/-- The update scheduled by `simulateProcessing` at 3000 ms. -/
def simulateUpdate2 (v : VideoRecord) : VideoRecord :=
  { v with status := VideoStatus.processing, progress := 50,
           message := some "Extracting scenes and objects..." }

/-- The update scheduled by `simulateProcessing` at 5000 ms. -/
def simulateUpdate3 (v : VideoRecord) : VideoRecord :=
  { v with status := VideoStatus.indexing, progress := 75,
           message := some "Creating searchable index..." }

/-- The canned analysis payload written by the completion update. -/
def sampleTimeline : TimelineData :=
  { duration := 30
    scenes :=
      [ { start := 0, «end» := 10, description := "Opening scene" }
      , { start := 10, «end» := 20, description := "Main content" }
      , { start := 20, «end» := 30, description := "Closing scene" } ]
    objects := ["person", "car", "building"]
    text := ["Sample text detected"]
    speech := "Sample speech transcription" }

/-- The update scheduled by `simulateProcessing` at 8000 ms. -/
def simulateUpdate4 (v : VideoRecord) : VideoRecord :=
  { v with status := VideoStatus.completed, progress := 100,
           message := some "Analysis complete",
           timeline := some sampleTimeline }

/-- The four timer callbacks of `simulateProcessing`, in firing order
(1 s, 3 s, 5 s, 8 s). -/
def simulateUpdates : List (VideoRecord → VideoRecord) :=
  [simulateUpdate1, simulateUpdate2, simulateUpdate3, simulateUpdate4]

/-- The successive values the stored record takes during the simulated
processing workflow, starting from the record as created by `POST`. -/
def processingTrace (v : VideoRecord) : List VideoRecord :=
  List.scanl (fun r u => u r) v simulateUpdates

/-- Position of a status in the fixed progression
`uploading -> processing -> indexing -> completed` (with `error` last, off the
happy path). -/
def statusRank : VideoStatus → Nat
  | VideoStatus.uploading => 0
  | VideoStatus.processing => 1
  | VideoStatus.indexing => 2
  | VideoStatus.completed => 3
  | VideoStatus.error => 4

/-! ## C1: the history cap and newest-first insertion -/

/-- Claim C1: after `videoStorage.save`, the persisted history list (the list
written back to storage, `saveList` of the current list) has at most 50
entries, and a video whose `videoId` is not already present is inserted at
index 0, so entries appear newest first. -/
theorem saveList_caps_and_prepends_newest (videos : List StoredVideo)
    (video : StoredVideo) :
    (videoStorage.saveList videos video).length ≤ 50 ∧
    ((∀ v ∈ videos, v.videoId ≠ video.videoId) →
      (videoStorage.saveList videos video).head? = some video) := by
  constructor
  · exact List.length_take_le _ _
  · intro h
    have hfind : videos.findIdx? (fun v => v.videoId == video.videoId) = none := by
      rw [List.findIdx?_eq_none_iff]
      intro x hx
      simpa using h x hx
    unfold videoStorage.saveList
    simp only [hfind]
    rfl

/-- Witness for C1 at a concrete fresh video. -/
theorem saveList_caps_and_prepends_newest_witness :
    (videoStorage.saveList
      [{ videoId := "old", name := "a", uploadDate := "d0",
         status := VideoStatus.completed }]
      { videoId := "new", name := "b", uploadDate := "d1",
        status := VideoStatus.uploading }).head? =
      some { videoId := "new", name := "b", uploadDate := "d1",
             status := VideoStatus.uploading } :=
  (saveList_caps_and_prepends_newest _ _).2 (by decide)

/-! ## C9: totality of the storage interface -/

/-- Claim C9: every `videoStorage` operation is total at its public
interface.  `getAll` returns `[]` (rather than propagating an exception) when
`window` is undefined, when nothing is stored, when `getItem` throws, and
when the stored value fails to parse; `save`, `delete` and `clear` swallow
storage failures and leave the environment unchanged. -/
theorem videoStorage_total
    (jsonParse : String → Except String (List StoredVideo))
    (jsonStringify : List StoredVideo → String)
    (env : StorageEnv) (video : StoredVideo) (videoId : String) :
    (env.windowDefined = false → videoStorage.getAll jsonParse env = []) ∧
    (env.stored = none → videoStorage.getAll jsonParse env = []) ∧
    (env.getItemFails = true → videoStorage.getAll jsonParse env = []) ∧
    (∀ s e, env.stored = some s → jsonParse s = Except.error e →
      videoStorage.getAll jsonParse env = []) ∧
    (env.setItemFails = true →
      videoStorage.save jsonParse jsonStringify env video = env ∧
      videoStorage.delete jsonParse jsonStringify env videoId = env) ∧
    (env.removeItemFails = true → videoStorage.clear env = env) := by
  refine ⟨fun h => ?_, fun h => ?_, fun h => ?_, fun s e hs hp => ?_,
    fun h => ⟨?_, ?_⟩, fun h => ?_⟩
  · simp [videoStorage.getAll, h]
  · unfold videoStorage.getAll localStorageGetItem
    cases hgf : env.getItemFails <;> simp [h, hgf]
  · unfold videoStorage.getAll localStorageGetItem
    split
    · simp [h]
    · rfl
  · unfold videoStorage.getAll localStorageGetItem
    cases hgf : env.getItemFails <;> simp [hs, hp, hgf]
  · unfold videoStorage.save localStorageSetItem
    split
    · simp [h]
    · rfl
  · unfold videoStorage.delete localStorageSetItem
    split
    · simp [h]
    · rfl
  · unfold videoStorage.clear localStorageRemoveItem
    split
    · simp [h]
    · rfl

/-- Witness for C9: a concrete environment with no window, nothing stored,
and a failing `setItem`. -/
theorem videoStorage_total_witness :
    videoStorage.getAll (fun _ => Except.error "bad json")
      { windowDefined := false, stored := none } = [] :=
  (videoStorage_total (fun _ => Except.error "bad json") (fun _ => "")
    { windowDefined := false, stored := none }
    { videoId := "v", name := "n", uploadDate := "d",
      status := VideoStatus.uploading } "v").1 rfl

/-! ## C10: in-place update of an existing history entry -/

/-- Claim C10: saving a video whose `videoId` is already in the history (at
first matching index `i`, within the 50-entry cap) updates that entry in
place by merging the new fields over the old record: the length is unchanged,
every other entry keeps its position and contents, and the updated record
stays at index `i` instead of moving to the front. -/
theorem saveList_updates_in_place (videos : List StoredVideo)
    (video old : StoredVideo) (i : Nat)
    (hfind : videos.findIdx? (fun v => v.videoId == video.videoId) = some i)
    (hold : videos[i]? = some old)
    (hlen : videos.length ≤ 50) :
    (videoStorage.saveList videos video).length = videos.length ∧
    (videoStorage.saveList videos video)[i]? = some (mergeVideo old video) ∧
    (∀ j, j ≠ i → (videoStorage.saveList videos video)[j]? = videos[j]?) := by
  have hi : i < videos.length := by
    by_contra hcon
    rw [List.getElem?_eq_none (Nat.le_of_not_lt hcon)] at hold
    exact Option.noConfusion hold
  have hset : videoStorage.saveList videos video =
      videos.set i (mergeVideo old video) := by
    unfold videoStorage.saveList
    have hold' : videos.get? i = some old := by
      rw [List.get?_eq_getElem?]; exact hold
    simp only [hfind, hold']
    exact List.take_of_length_le (by simpa using hlen)
  rw [hset]
  refine ⟨List.length_set .., ?_, fun j hj => ?_⟩
  · exact List.getElem?_set_self (by simpa using hi)
  · exact List.getElem?_set_ne (fun hij => hj hij.symm)

/-- Witness for C10 at a concrete two-entry history. -/
theorem saveList_updates_in_place_witness :
    (videoStorage.saveList
      [{ videoId := "a", name := "first", uploadDate := "d0",
         status := VideoStatus.completed },
       { videoId := "b", name := "second", uploadDate := "d1",
         status := VideoStatus.uploading, fileSize := some 7 }]
      { videoId := "b", name := "second", uploadDate := "d2",
        status := VideoStatus.completed }).length = 2 :=
  (saveList_updates_in_place _ _
    { videoId := "b", name := "second", uploadDate := "d1",
      status := VideoStatus.uploading, fileSize := some 7 }
    1 (by decide) (by decide) (by decide)).1

/-! ## C2: scene auto-selection -/

/-- Both blocks only ever append, so previously selected ids stay selected. -/
theorem mem_autoSelectPositive (sceneList : List Scene) (selected : List String)
    (x : String) (hx : x ∈ selected) : x ∈ autoSelectPositive sceneList selected := by
  unfold autoSelectPositive
  split
  · exact List.mem_append_left _ hx
  · exact hx

/-- Previously selected ids survive the middle-scene block. -/
theorem mem_autoSelectMiddle (sceneList : List Scene) (selected : List String)
    (x : String) (hx : x ∈ selected) : x ∈ autoSelectMiddle sceneList selected := by
  unfold autoSelectMiddle
  by_cases hl : sceneList.length > 3
  · rw [if_pos hl]
    cases hg : sceneList.get? (sceneList.length / 2) with
    | none => simp only [hg]; exact hx
    | some mid =>
        simp only [hg]
        by_cases hin : selected.contains mid.id
        · rw [if_pos hin]; exact hx
        · rw [if_neg hin]; exact List.mem_append_left _ hx
  · rw [if_neg hl]; exact hx

/-- The first positive-sentiment scene's id is pushed by the second block. -/
theorem positive_mem_autoSelectPositive (sceneList : List Scene)
    (selected : List String) (p : Scene)
    (hp : (sceneList.filter (fun s => s.sentiment == some Sentiment.positive)).head? =
      some p) :
    p.id ∈ autoSelectPositive sceneList selected := by
  unfold autoSelectPositive
  simp only [hp]
  exact List.mem_append_right _ (List.mem_singleton.mpr rfl)

/-- The middle scene's id ends up selected whenever the list has more than 3
scenes. -/
theorem middle_mem_autoSelectMiddle (sceneList : List Scene)
    (selected : List String) (mid : Scene)
    (hlen : sceneList.length > 3)
    (hmid : sceneList[sceneList.length / 2]? = some mid) :
    mid.id ∈ autoSelectMiddle sceneList selected := by
  unfold autoSelectMiddle
  have hmid' : sceneList.get? (sceneList.length / 2) = some mid := by
    rw [List.get?_eq_getElem?]; exact hmid
  rw [if_pos hlen]
  simp only [hmid']
  by_cases hin : selected.contains mid.id
  · rw [if_pos hin]
    exact List.mem_of_elem_eq_true hin
  · rw [if_neg hin]
    exact List.mem_append_right _ (List.mem_singleton.mpr rfl)

/-- First scene of the C2 counterexample list. -/
def c2SceneA : Scene := { id := "scene_0", start := 0, «end» := 15 }

/-- Second scene of the C2 counterexample list: it sits at the middle index
`floor(2 / 2) = 1` but is never selected. -/
def c2SceneB : Scene := { id := "scene_1", start := 15, «end» := 30 }

/-- Claim C2 (counterexample): on a two-scene list a middle scene is present
(`floor(2 / 2) = 1`), yet `autoSelectScenes` selects only the first scene, so
the selection does not include the middle scene's id. -/
theorem autoSelectScenes_middle_counterexample :
    ([c2SceneA, c2SceneB].length > 0) ∧
    ([c2SceneA, c2SceneB][[c2SceneA, c2SceneB].length / 2]?).map Scene.id =
      some "scene_1" ∧
    autoSelectScenes [c2SceneA, c2SceneB] = ["scene_0"] ∧
    ¬ ("scene_1" ∈ autoSelectScenes [c2SceneA, c2SceneB]) := by
  decide

/-- Claim C2 (amended): for every non-empty scene list the selection includes
the first scene's id; whenever a positive-sentiment scene exists, the
selection includes the id of such a scene; and whenever the list has more
than 3 scenes, the selection includes the id of the middle scene (the element
at index `floor(length / 2)`). -/
theorem autoSelectScenes_selection (sceneList : List Scene) (first : Scene)
    (hhead : sceneList.head? = some first) :
    first.id ∈ autoSelectScenes sceneList ∧
    ((∃ s ∈ sceneList, s.sentiment = some Sentiment.positive) →
      ∃ s ∈ sceneList, s.sentiment = some Sentiment.positive ∧
        s.id ∈ autoSelectScenes sceneList) ∧
    (sceneList.length > 3 →
      ∀ mid, sceneList[sceneList.length / 2]? = some mid →
        mid.id ∈ autoSelectScenes sceneList) := by
  have heq : autoSelectScenes sceneList =
      autoSelectMiddle sceneList (autoSelectPositive sceneList [first.id]) := by
    unfold autoSelectScenes
    rw [hhead]
  refine ⟨?_, fun hpos => ?_, fun hlen mid hmid => ?_⟩
  · rw [heq]
    exact mem_autoSelectMiddle _ _ _
      (mem_autoSelectPositive _ _ _ (List.mem_singleton.mpr rfl))
  · obtain ⟨s, hs, hsent⟩ := hpos
    have hsf : s ∈ sceneList.filter (fun t => t.sentiment == some Sentiment.positive) :=
      List.mem_filter.mpr ⟨hs, by simp [hsent]⟩
    obtain ⟨p, hp⟩ : ∃ p,
        (sceneList.filter (fun t => t.sentiment == some Sentiment.positive)).head? =
          some p := by
      cases hh : (sceneList.filter
          (fun t => t.sentiment == some Sentiment.positive)).head? with
      | none =>
          rw [List.head?_eq_none_iff] at hh
          rw [hh] at hsf
          exact absurd hsf (List.not_mem_nil s)
      | some p => exact ⟨p, rfl⟩
    have hpf : p ∈ sceneList.filter (fun t => t.sentiment == some Sentiment.positive) :=
      List.mem_of_mem_head? (by simp [hp])
    have hpl := List.mem_filter.mp hpf
    refine ⟨p, hpl.1, by simpa using hpl.2, ?_⟩
    rw [heq]
    exact mem_autoSelectMiddle _ _ _ (positive_mem_autoSelectPositive _ _ _ hp)
  · rw [heq]
    exact middle_mem_autoSelectMiddle _ _ _ hlen hmid

/-- Witness for the amended C2 at a concrete five-scene list. -/
theorem autoSelectScenes_selection_witness :
    "scene_0" ∈ autoSelectScenes
      [{ id := "scene_0", start := 0, «end» := 15 },
       { id := "scene_1", start := 15, «end» := 30,
         sentiment := some Sentiment.positive },
       { id := "scene_2", start := 30, «end» := 45 },
       { id := "scene_3", start := 45, «end» := 60 },
       { id := "scene_4", start := 60, «end» := 75 }] :=
  (autoSelectScenes_selection
    [{ id := "scene_0", start := 0, «end» := 15 },
     { id := "scene_1", start := 15, «end» := 30,
       sentiment := some Sentiment.positive },
     { id := "scene_2", start := 30, «end» := 45 },
     { id := "scene_3", start := 45, «end» := 60 },
     { id := "scene_4", start := 60, «end» := 75 }]
    { id := "scene_0", start := 0, «end» := 15 } rfl).1

/-! ## C3: polling stops exactly on terminal states -/

/-- Claim C3: status polling stops exactly on terminal states.  After any
single execution of `pollStatus`, the interval was cleared if and only if the
status it recorded is `completed` or `error` (a failed fetch is mapped to the
terminal `error` state and also clears); for every non-terminal observed
status polling continues, at the fixed 2-second interval. -/
theorem pollStep_clears_iff_terminal (videoId : String)
    (fetchResult : Except String VideoStatusData) :
    ((pollStep videoId fetchResult).cleared = true ↔
      ((pollStep videoId fetchResult).observed.status = VideoStatus.completed ∨
       (pollStep videoId fetchResult).observed.status = VideoStatus.error)) ∧
    pollIntervalMs = 2000 := by
  refine ⟨?_, rfl⟩
  cases fetchResult with
  | ok data => simp [pollStep]
  | error e => simp [pollStep]

/-! ## C4: file-size thresholds -/

/-- Claim C4: for a selected video file, `size / 1024 / 1024 > 100` rejects
it with the fixed too-large error and leaves the file state untouched;
`50 < size / 1024 / 1024 ≤ 100` accepts it and shows the large-file warning;
`size / 1024 / 1024 ≤ 50` accepts it with no error. -/
theorem handleFileChange_thresholds (selectedFile : JSFile) (st : SubmitState)
    (hvideo : strStartsWith selectedFile.type "video/" = true) :
    (((selectedFile.size : ℚ) / 1024 / 1024 > 100 →
      (handleFileChange selectedFile st).error = some (UploadMsg.text
        "File too large. Please use a video smaller than 100MB or try a video URL instead.") ∧
      (handleFileChange selectedFile st).file = st.file)) ∧
    (((selectedFile.size : ℚ) / 1024 / 1024 > 50 ∧
        ¬ ((selectedFile.size : ℚ) / 1024 / 1024 > 100)) →
      (handleFileChange selectedFile st).file = some selectedFile ∧
      (handleFileChange selectedFile st).error =
        some (UploadMsg.largeFileWarning ((selectedFile.size : ℚ) / 1024 / 1024))) ∧
    ((selectedFile.size : ℚ) / 1024 / 1024 ≤ 50 →
      (handleFileChange selectedFile st).file = some selectedFile ∧
      (handleFileChange selectedFile st).error = none) := by
  refine ⟨fun h100 => ?_, fun h => ?_, fun h50 => ?_⟩
  · constructor <;> simp [handleFileChange, hvideo, h100]
  · obtain ⟨h50, h100⟩ := h
    constructor <;> simp [handleFileChange, hvideo, h50, h100]
  · have h100 : ¬ ((selectedFile.size : ℚ) / 1024 / 1024 > 100) := by linarith
    have h50' : ¬ ((selectedFile.size : ℚ) / 1024 / 1024 > 50) := by linarith
    constructor <;> simp [handleFileChange, hvideo, h50', h100]

/-- Witness for C4: a 60 MB video file is accepted with the large-file
warning. -/
theorem handleFileChange_thresholds_witness :
    (handleFileChange { name := "mid.mp4", size := 62914560, type := "video/mp4" }
      {}).file = some { name := "mid.mp4", size := 62914560, type := "video/mp4" } ∧
    (handleFileChange { name := "mid.mp4", size := 62914560, type := "video/mp4" }
      {}).error = some (UploadMsg.largeFileWarning
        (((62914560 : Nat) : ℚ) / 1024 / 1024)) :=
  (handleFileChange_thresholds
    { name := "mid.mp4", size := 62914560, type := "video/mp4" } {}
    (by decide)).2.1 (by norm_num)

/-! ## C5: the simulated workflow is monotone -/

/-- Claim C5: starting from the freshly-created record (`uploading`,
progress 0), the simulated processing workflow steps through the statuses
`uploading, processing, processing, indexing, completed` with progress
`0, 25, 50, 75, 100`; the status never moves backwards in the fixed enum
order and the progress never decreases. -/
theorem processingTrace_monotone (v : VideoRecord)
    (hstatus : v.status = VideoStatus.uploading) (hprog : v.progress = 0) :
    (processingTrace v).map (fun r => r.progress) = [0, 25, 50, 75, 100] ∧
    (processingTrace v).map (fun r => r.status) =
      [VideoStatus.uploading, VideoStatus.processing, VideoStatus.processing,
       VideoStatus.indexing, VideoStatus.completed] ∧
    List.Chain' (fun a b => statusRank a ≤ statusRank b)
      ((processingTrace v).map (fun r => r.status)) ∧
    List.Chain' (fun a b => a ≤ b)
      ((processingTrace v).map (fun r => r.progress)) := by
  refine ⟨?_, ?_, ?_, ?_⟩ <;>
    simp [processingTrace, simulateUpdates, simulateUpdate1, simulateUpdate2,
      simulateUpdate3, simulateUpdate4, hstatus, hprog, statusRank,
      List.chain'_cons]

/-- Witness for C5 at the record `POST` creates. -/
theorem processingTrace_monotone_witness :
    (processingTrace
      { id := "vid-w", status := VideoStatus.uploading, progress := 0 }).map
        (fun r => r.progress) = [0, 25, 50, 75, 100] :=
  (processingTrace_monotone
    { id := "vid-w", status := VideoStatus.uploading, progress := 0 } rfl rfl).1

/-! ## C6: the upload endpoint -/

/-- A URL "parser" that rejects every string, standing in for `new URL`
throwing on a malformed input. -/
def rejectAllUrls : String → Except String Unit := fun _ => Except.error "invalid URL"

/-- The file sent in the C6 counterexample request. -/
def c6File : JSFile := { name := "ad.mp4", size := 5, type := "video/mp4" }

/-- Claim C6 (counterexample): a POST request carrying both a file and a url
that does not parse is answered 201, not 400: the handler never validates the
url once a file is present. -/
theorem POST_invalid_url_counterexample :
    validateUrl rejectAllUrls "::bad url" = false ∧
    (POST rejectAllUrls "vid-1" "t0" (some c6File) (some "::bad url")
      false).response.statusCode = 201 ∧
    ¬ ((POST rejectAllUrls "vid-1" "t0" (some c6File) (some "::bad url")
      false).response.statusCode = 400) := by
  refine ⟨rfl, rfl, fun h => ?_⟩
  have h201 : (POST rejectAllUrls "vid-1" "t0" (some c6File) (some "::bad url")
      false).response.statusCode = 201 := rfl
  rw [h] at h201
  omega

/-- Claim C6 (amended): the upload endpoint returns a generated identifier on
success and rejects invalid input, the URL being validated only when no file
is provided.  If neither a file nor a non-empty url is given the response is
400 `'Either file or url is required'` and nothing is stored; if no file is
given and the url fails to parse the response is 400 `'Invalid URL provided'`
and nothing is stored; if a file is given, or the url parses, the response is
201 carrying the freshly generated videoId and status `'uploading'`, and a
record with that id, status `'uploading'` and progress 0 is stored in the
video store. -/
theorem POST_spec (urlParse : String → Except String Unit) (freshId now : String)
    (file : Option JSFile) (url : Option String) (fileWriteFails : Bool) :
    (¬ (file.isSome = true ∨ urlTruthy url = true) →
      (POST urlParse freshId now file url fileWriteFails).response.statusCode = 400 ∧
      (POST urlParse freshId now file url fileWriteFails).response.error =
        some "Either file or url is required" ∧
      (POST urlParse freshId now file url fileWriteFails).storedRecord = none) ∧
    (file = none → ∀ u, url = some u → ¬ u = "" → validateUrl urlParse u = false →
      (POST urlParse freshId now file url fileWriteFails).response.statusCode = 400 ∧
      (POST urlParse freshId now file url fileWriteFails).response.error =
        some "Invalid URL provided" ∧
      (POST urlParse freshId now file url fileWriteFails).storedRecord = none) ∧
    (file.isSome = true ∨
        (file = none ∧ ∃ u, url = some u ∧ ¬ u = "" ∧ validateUrl urlParse u = true) →
      (POST urlParse freshId now file url fileWriteFails).response.statusCode = 201 ∧
      (POST urlParse freshId now file url fileWriteFails).response.videoId =
        some freshId ∧
      (POST urlParse freshId now file url fileWriteFails).response.status =
        some VideoStatus.uploading ∧
      ∃ record,
        (POST urlParse freshId now file url fileWriteFails).storedRecord =
          some (freshId, record) ∧
        record.id = freshId ∧ record.status = VideoStatus.uploading ∧
        record.progress = 0) := by
  refine ⟨fun hnone => ?_, fun hfile u hu hne hval => ?_, fun hok => ?_⟩
  · unfold POST
    rw [if_pos]
    · exact ⟨rfl, rfl, rfl⟩
    · simpa using hnone
  · subst hfile
    subst hu
    have hparse : ∃ e, urlParse u = Except.error e := by
      unfold validateUrl at hval
      cases hp : urlParse u with
      | ok r => rw [hp] at hval; exact absurd hval (by simp)
      | error e => exact ⟨e, rfl⟩
    obtain ⟨e, hparse⟩ := hparse
    unfold POST
    rw [if_neg]
    · simp [urlTruthy, hne, hparse]
    · simp [urlTruthy, hne]
  · rcases hok with hfile | ⟨hfile, u, hu, hne, hval⟩
    · obtain ⟨f, hf⟩ := Option.isSome_iff_exists.mp hfile
      subst hf
      unfold POST
      rw [if_neg (by simp)]
      exact ⟨rfl, rfl, rfl, _, rfl, rfl, rfl, rfl⟩
    · subst hfile
      subst hu
      have hparse : ∃ r, urlParse u = Except.ok r := by
        unfold validateUrl at hval
        cases hp : urlParse u with
        | ok r => exact ⟨r, rfl⟩
        | error e => rw [hp] at hval; exact absurd hval (by simp)
      obtain ⟨r, hparse⟩ := hparse
      unfold POST
      rw [if_neg]
      · simp only [urlTruthy, hparse]
        rw [if_pos (by simpa using hne)]
        exact ⟨rfl, rfl, rfl, _, rfl, rfl, rfl, rfl⟩
      · simp [urlTruthy, hne]

/-- Witness for the amended C6: a file-only request is answered 201. -/
theorem POST_spec_witness :
    (POST rejectAllUrls "vid-2" "t1" (some c6File) none
      false).response.statusCode = 201 :=
  ((POST_spec rejectAllUrls "vid-2" "t1" (some c6File) none false).2.2
    (Or.inl rfl)).1

/-! ## C7: URL validation and the submit guard -/

/-- Claim C7: `validateUrl` returns true exactly when its argument parses as
an absolute URL (i.e. when the URL constructor does not throw), and `submit`
called with a non-empty URL that fails validation sets the error
`'Please enter a valid URL'` and issues no upload request. -/
theorem validateUrl_iff_and_submit_guard
    (urlParse : String → Except String Unit) (u : String) (st : SubmitState)
    (fetchOutcome : FetchOutcome) (uploadDate : String) :
    (validateUrl urlParse u = true ↔ ∃ r, urlParse u = Except.ok r) ∧
    (¬ st.url = "" → validateUrl urlParse st.url = false →
      (submit urlParse fetchOutcome uploadDate st).1.error =
        some (UploadMsg.text "Please enter a valid URL") ∧
      (submit urlParse fetchOutcome uploadDate st).2 = 0) := by
  constructor
  · unfold validateUrl
    cases hp : urlParse u with
    | ok r => simp
    | error e => simp
  · intro hne hval
    have h1 : (st.url == "") = false := by simpa using hne
    unfold submit
    rw [hval, h1]
    simp [hne]

/-- Witness for C7: a parser rejecting everything plus a non-empty URL. -/
theorem validateUrl_iff_and_submit_guard_witness :
    (submit rejectAllUrls (FetchOutcome.ok "unused") "t3"
      { url := "not a url" }).1.error =
      some (UploadMsg.text "Please enter a valid URL") :=
  ((validateUrl_iff_and_submit_guard rejectAllUrls "not a url"
    { url := "not a url" } (FetchOutcome.ok "unused") "t3").2
    (by decide) rfl).1

/-! ## C8: upload failures are terminal for the current action -/

/-- Whether the single fetch of `submit` failed (non-OK HTTP response or a
thrown error), i.e. whether control lands in the catch block. -/
def isUploadFailure : FetchOutcome → Bool
  | FetchOutcome.ok _ => false
  | FetchOutcome.httpError _ _ => true
  | FetchOutcome.networkFetchError _ => true
  | FetchOutcome.otherError _ => true

/-- Claim C8: when `submit` gets past its guards (so it issues the upload
request) and the request fails in any way, exactly one request was made (no
retry), a user-visible error message is set, and the state is otherwise
untouched: the videoId is not set, nothing is saved to the history storage,
and the view does not switch to processing. -/
theorem submit_failure_terminal
    (urlParse : String → Except String Unit) (fetchOutcome : FetchOutcome)
    (uploadDate : String) (st : SubmitState)
    (hready : st.file.isSome = true ∨ ¬ st.url = "")
    (hvalid : ¬ st.url = "" → validateUrl urlParse st.url = true)
    (hfail : isUploadFailure fetchOutcome = true) :
    (submit urlParse fetchOutcome uploadDate st).2 = 1 ∧
    (submit urlParse fetchOutcome uploadDate st).1.error.isSome = true ∧
    (submit urlParse fetchOutcome uploadDate st).1.videoId = st.videoId ∧
    (submit urlParse fetchOutcome uploadDate st).1.history = st.history ∧
    (submit urlParse fetchOutcome uploadDate st).1.currentView = st.currentView := by
  have hguard1 : (st.file.isNone && st.url == "") = false := by
    rcases hready with h | h
    · cases hf : st.file with
      | none => rw [hf] at h; exact absurd h (by simp)
      | some f => simp
    · have : (st.url == "") = false := by simpa using h
      simp [this]
  have hguard2 : (st.url != "" && !(validateUrl urlParse st.url)) = false := by
    by_cases hu : st.url = ""
    · simp [hu]
    · simp [hvalid hu]
  unfold submit
  rw [hguard1, hguard2]
  simp only [Bool.false_eq_true, if_false]
  cases fetchOutcome with
  | ok vid => exact absurd hfail (by simp [isUploadFailure])
  | httpError a b => exact ⟨rfl, rfl, rfl, rfl, rfl⟩
  | networkFetchError m => exact ⟨rfl, rfl, rfl, rfl, rfl⟩
  | otherError m => exact ⟨rfl, rfl, rfl, rfl, rfl⟩

/-- Witness for C8: a ready form whose upload gets a non-OK HTTP response. -/
theorem submit_failure_terminal_witness :
    (submit rejectAllUrls (FetchOutcome.httpError "Bad Gateway" "upstream down")
      "t2" { file := some { name := "clip.mp4", size := 9, type := "video/mp4" } }).2
      = 1 :=
  (submit_failure_terminal rejectAllUrls
    (FetchOutcome.httpError "Bad Gateway" "upstream down") "t2"
    { file := some { name := "clip.mp4", size := 9, type := "video/mp4" } }
    (Or.inl rfl) (fun h => absurd rfl h) rfl).1

end Advertising
